import Mathlib

/-!
Verification of the UWA system-manager configuration record
(src/uwa/sys/uwa_sys_cfg.cc) and of the event-dispatch core it
parameterizes, as described by the repository specification.

The C++ source under verification is:

  const tUWA_SYS_CFG uwa_sys_cfg = {
      UWA_MBOX_EVT_MASK, /- GKI mailbox event -/
      UWA_MBOX_ID,       /- GKI mailbox id -/
      UWA_TIMER_ID,      /- GKI timer id -/
  };
  tUWA_SYS_CFG* p_uwa_sys_cfg = (tUWA_SYS_CFG*)&uwa_sys_cfg;

The struct type tUWA_SYS_CFG and the three build-time constants are
declared in headers (uwa_sys.h, uwb_gki.h) that are not part of the
source tree, so they are modelled from the spec; the dispatch loop,
handler registry and event-source adapter exist only in the spec and
are modelled from its words.
-/

/-- Modelled from the spec: the configuration record is a triple with
fields mailboxEventMask, mailboxId, timerId, in that order.  The C++
declaration of tUWA_SYS_CFG lives in uwa_sys.h, which is absent from
the source tree; the field names and order follow the spec's data
model and the positional initializer in uwa_sys_cfg.cc. -/
structure tUWA_SYS_CFG where
  mailboxEventMask : Nat
  mailboxId : Nat
  timerId : Nat
deriving DecidableEq, Repr

/-- Modelled from the spec: the build-time constants UWA_MBOX_EVT_MASK,
UWA_MBOX_ID and UWA_TIMER_ID are macros from headers absent from the
source tree; the spec fixes no numeric values (they are compile-time
configurable), so they are an arbitrary parameter triple. -/
structure BuildConstants where
  UWA_MBOX_EVT_MASK : Nat
  UWA_MBOX_ID : Nat
  UWA_TIMER_ID : Nat
deriving DecidableEq, Repr

/-- The const global object built by the positional initializer in
uwa_sys_cfg.cc: field 1 gets UWA_MBOX_EVT_MASK, field 2 gets
UWA_MBOX_ID, field 3 gets UWA_TIMER_ID. -/
def uwa_sys_cfg (c : BuildConstants) : tUWA_SYS_CFG :=
  { mailboxEventMask := c.UWA_MBOX_EVT_MASK
    mailboxId := c.UWA_MBOX_ID
    timerId := c.UWA_TIMER_ID }

/-- Abstract addresses for the memory model of the translation unit:
the address of the const object uwa_sys_cfg, the null address, and
addresses of unrelated objects. -/
inductive Addr where
  | nullAddr : Addr
  | uwaSysCfgAddr : Addr
  | otherAddr : Nat → Addr
deriving DecidableEq, Repr

/-- The process-wide state contributed by uwa_sys_cfg.cc: the contents
of the const object uwa_sys_cfg (its storage) and the value of the
mutable global pointer p_uwa_sys_cfg. -/
structure SysState where
  uwa_sys_cfg_val : tUWA_SYS_CFG
  p_uwa_sys_cfg : Addr
deriving DecidableEq, Repr

/-- Static initialization of the translation unit: the const object is
built from the three build-time constants, and p_uwa_sys_cfg is set to
the address of uwa_sys_cfg (the C++ initializer casts away const to
form the pointer). -/
def staticInit (c : BuildConstants) : SysState :=
  { uwa_sys_cfg_val := uwa_sys_cfg c
    p_uwa_sys_cfg := Addr.uwaSysCfgAddr }

/-- The only well-defined mutation the translation unit exposes:
reassigning the mutable global pointer p_uwa_sys_cfg (the file itself
exposes no operation that writes the const record). -/
inductive SysOp where
  | assignPtr : Addr → SysOp
deriving DecidableEq, Repr

/-- Effect of one operation on the translation unit's state.
Reassigning the pointer leaves the const object's storage untouched. -/
def applyOp (s : SysState) : SysOp → SysState
  | SysOp.assignPtr a => { s with p_uwa_sys_cfg := a }

/-- Run a finite sequence of operations. -/
def runOps (s : SysState) : List SysOp → SysState
  | [] => s
  | op :: ops => runOps (applyOp s op) ops

/-- Reading a tUWA_SYS_CFG through an address: only the address of the
unique const object yields the record; null and unrelated addresses
yield nothing (the translation unit defines no other such object). -/
def derefCfg (s : SysState) : Addr → Option tUWA_SYS_CFG
  | Addr.uwaSysCfgAddr => some s.uwa_sys_cfg_val
  | _ => none

/-- Whether an address designates const storage: the object
uwa_sys_cfg is declared const, so its storage is const. -/
def isConstStorage : Addr → Bool
  | Addr.uwaSysCfgAddr => true
  | _ => false

/-- Error outcomes of a store through p_uwa_sys_cfg. -/
inductive WriteError where
  | writeToConstStorage : WriteError
  | invalidTarget : WriteError
deriving DecidableEq, Repr

/-- A store through the pointer p_uwa_sys_cfg.  Although the pointer
type is mutable (the initializer casts away const), a store whose
target is the const object's storage is undefined behaviour in C++,
modelled as an error; a store through null is likewise an error; a
store to an unrelated object does not touch this unit's state. -/
def writeThrough (s : SysState) (v : tUWA_SYS_CFG) : Except WriteError SysState :=
  match s.p_uwa_sys_cfg with
  | Addr.uwaSysCfgAddr => Except.error WriteError.writeToConstStorage
  | Addr.nullAddr => Except.error WriteError.invalidTarget
  | Addr.otherAddr _ =>
      let _ := v
      Except.ok s

/-- Claim C1: the configuration record uwa_sys_cfg is a triple of
exactly three fields in the order mailboxEventMask, mailboxId,
timerId, whose values are the build-time constants UWA_MBOX_EVT_MASK,
UWA_MBOX_ID and UWA_TIMER_ID respectively; a tUWA_SYS_CFG value is
fully determined by those three fields. -/
theorem claim_C1_cfg_fields (c : BuildConstants) :
    (uwa_sys_cfg c).mailboxEventMask = c.UWA_MBOX_EVT_MASK ∧
    (uwa_sys_cfg c).mailboxId = c.UWA_MBOX_ID ∧
    (uwa_sys_cfg c).timerId = c.UWA_TIMER_ID ∧
    ∀ x : tUWA_SYS_CFG, x = ⟨x.mailboxEventMask, x.mailboxId, x.timerId⟩ :=
  ⟨rfl, rfl, rfl, fun _ => rfl⟩

/-- Claim C2: the configuration record is immutable for the lifetime
of the process: it is constructed once at static initialization and
after any finite sequence of the operations the program exposes its
storage still holds its build-time value uwa_sys_cfg c. -/
theorem claim_C2_cfg_immutable (c : BuildConstants) (ops : List SysOp) :
    (runOps (staticInit c) ops).uwa_sys_cfg_val = uwa_sys_cfg c := by
  have h : ∀ (s : SysState) (l : List SysOp),
      (runOps s l).uwa_sys_cfg_val = s.uwa_sys_cfg_val := by
    intro s l
    induction l generalizing s with
    | nil => rfl
    | cons op ops ih =>
        cases op with
        | assignPtr a => simpa [runOps, applyOp] using ih { s with p_uwa_sys_cfg := a }
  exact h (staticInit c) ops

/-- Claim C3: exactly one configuration-record instance exists (the
dereference map yields a record only at the address of uwa_sys_cfg);
immediately after static initialization p_uwa_sys_cfg equals the
address of uwa_sys_cfg; and reassigning p_uwa_sys_cfg does not change
the constant record itself. -/
theorem claim_C3_singleton_and_ptr (c : BuildConstants) :
    (staticInit c).p_uwa_sys_cfg = Addr.uwaSysCfgAddr ∧
    (∀ a : Addr, derefCfg (staticInit c) a =
      if a = Addr.uwaSysCfgAddr then some (uwa_sys_cfg c) else none) ∧
    (∀ a : Addr,
      (applyOp (staticInit c) (SysOp.assignPtr a)).uwa_sys_cfg_val = uwa_sys_cfg c) := by
  refine ⟨rfl, ?_, fun a => rfl⟩
  intro a
  cases a <;> simp [derefCfg, staticInit]

/-- Claim C9: after static initialization and before any reassignment,
the global pointer p_uwa_sys_cfg is non-null and dereferencing it
succeeds, yielding the triple of the three build-time constants. -/
theorem claim_C9_ptr_valid (c : BuildConstants) :
    (staticInit c).p_uwa_sys_cfg ≠ Addr.nullAddr ∧
    derefCfg (staticInit c) ((staticInit c).p_uwa_sys_cfg) =
      some ⟨c.UWA_MBOX_EVT_MASK, c.UWA_MBOX_ID, c.UWA_TIMER_ID⟩ :=
  ⟨fun h => Addr.noConfusion h, rfl⟩

/-- Claim C10: the initializer of p_uwa_sys_cfg casts away const: in
the initial state the pointer targets const storage, so a store
through it is an error (undefined behaviour), while reassigning the
pointer is well defined, retargets it, and leaves the constant record
unchanged. -/
theorem claim_C10_const_cast (c : BuildConstants) (v : tUWA_SYS_CFG) (a : Addr) :
    isConstStorage ((staticInit c).p_uwa_sys_cfg) = true ∧
    writeThrough (staticInit c) v = Except.error WriteError.writeToConstStorage ∧
    (applyOp (staticInit c) (SysOp.assignPtr a)).p_uwa_sys_cfg = a ∧
    (applyOp (staticInit c) (SysOp.assignPtr a)).uwa_sys_cfg_val = uwa_sys_cfg c :=
  ⟨rfl, rfl, rfl, rfl⟩

/-- Modelled from the spec: the discriminated event kind used as the
Handler Registry key, either a mailbox-message-type (a discriminator
carried by the message) or the timer-expiry kind. -/
inductive EventKind where
  | mbEvt : Nat → EventKind
  | timerEvt : EventKind
deriving DecidableEq, Repr

/-- Modelled from the spec: a tagged event as returned by the Event
Source Adapter's waitNext: a mailbox message (discriminator and
payload), a timer expiry, or the shutdown signal. -/
inductive Event where
  | mailbox : Nat → Nat → Event
  | timerExpired : Event
  | shutdown : Event
deriving DecidableEq, Repr

/-- Result of a Handler Registry lookup: a handler (identified by a
numeric id standing for the callback), or the NoHandler sentinel. -/
inductive LookupResult where
  | handler : Nat → LookupResult
  | noHandler : LookupResult
deriving DecidableEq, Repr

/-- Modelled from the spec: the Handler Registry, a mapping from event
kind to handler callback (handlers are identified by numeric ids). -/
abbrev Registry := List (EventKind × Nat)

/-- Modelled from the spec: remove the handler for a kind; no-op if
absent. -/
def unregisterH (r : Registry) (k : EventKind) : Registry :=
  r.filter (fun p => !(decide (p.1 = k)))

/-- Modelled from the spec: insert a handler for a kind; of the two
policies the spec offers for a duplicate kind we pick and document
Replace (the prior handler for that kind is overwritten). -/
def registerH (r : Registry) (k : EventKind) (h : Nat) : Registry :=
  (k, h) :: unregisterH r k

/-- Modelled from the spec: return the handler registered for a kind,
or the NoHandler sentinel (not a fatal error). -/
def lookupH (r : Registry) (k : EventKind) : LookupResult :=
  match r.find? (fun p => decide (p.1 = k)) with
  | some p => LookupResult.handler p.2
  | none => LookupResult.noHandler

/-- Modelled from the spec: the states of the Dispatch Loop's state
machine. -/
inductive LoopState where
  | stopped : LoopState
  | starting : LoopState
  | running : LoopState
  | draining : LoopState
deriving DecidableEq, Repr

/-- Modelled from the spec: the Event Source Adapter, the live binding
between the configuration identifiers and the kernel's mailbox and
timer objects. -/
structure Adapter where
  mailboxId : Nat
  eventMask : Nat
  timerId : Nat
  timerArmed : Bool
deriving DecidableEq, Repr

/-- Modelled from the spec: the kernel bindings already owned by other
tasks, which make an open request fail. -/
structure Kernel where
  ownedMailboxes : List Nat
  ownedTimers : List Nat
deriving DecidableEq, Repr

/-- Modelled from the spec: errors of the Event Source Adapter. -/
inductive AdapterError where
  | bindingError : AdapterError
  | doubleCloseError : AdapterError
deriving DecidableEq, Repr

/-- Modelled from the spec: open binds the task to the configured
mailbox id with the configured event mask and arms the timer slot in a
disabled state; it fails with BindingError when the requested mailbox
or timer id is already owned by another task. -/
def openAdapter (k : Kernel) (cfg : tUWA_SYS_CFG) : Except AdapterError Adapter :=
  if cfg.mailboxId ∈ k.ownedMailboxes ∨ cfg.timerId ∈ k.ownedTimers then
    Except.error AdapterError.bindingError
  else
    Except.ok
      { mailboxId := cfg.mailboxId
        eventMask := cfg.mailboxEventMask
        timerId := cfg.timerId
        timerArmed := false }

/-- One record of a handler invocation performed by the Dispatch Loop:
the event kind, the payload passed to the handler (0 for a timer
expiry), and the handler id invoked. -/
structure Invocation where
  kind : EventKind
  payload : Nat
  handler : Nat
deriving DecidableEq, Repr

/-- Modelled from the spec: the Dispatch Loop's state: its state
machine position, its Handler Registry, the adapter it owns (none when
closed), and the trace of handler invocations it has performed, in
order. -/
structure Dispatcher where
  state : LoopState
  registry : Registry
  adapter : Option Adapter
  trace : List Invocation
deriving Repr

/-- Modelled from the spec: start transitions Stopped to Starting and
opens the Event Source Adapter from the Configuration Record; on
success the loop becomes Running, on BindingError it returns to
Stopped with no adapter held and the error is reported to the caller
(second component).  Called in any other state it is a no-op. -/
def start (k : Kernel) (cfg : tUWA_SYS_CFG) (d : Dispatcher) :
    Dispatcher × Option AdapterError :=
  if d.state = LoopState.stopped then
    let d1 := { d with state := LoopState.starting }
    match openAdapter k cfg with
    | Except.ok a => ({ d1 with state := LoopState.running, adapter := some a }, none)
    | Except.error e => ({ d1 with state := LoopState.stopped, adapter := none }, some e)
  else (d, none)

/-- The handler invocation an event gives rise to under a registry:
none when the kind has no registered handler (the event is dropped)
and none for the shutdown signal (it drives the state machine, not a
handler). -/
def invocationOf (r : Registry) : Event → Option Invocation
  | Event.mailbox k p =>
      match lookupH r (EventKind.mbEvt k) with
      | LookupResult.handler h => some ⟨EventKind.mbEvt k, p, h⟩
      | LookupResult.noHandler => none
  | Event.timerExpired =>
      match lookupH r EventKind.timerEvt with
      | LookupResult.handler h => some ⟨EventKind.timerEvt, 0, h⟩
      | LookupResult.noHandler => none
  | Event.shutdown => none

/-- Modelled from the spec: handling of one event by the Running loop:
a mailbox event is routed by its discriminator to the registered
handler, invoked synchronously (recorded on the trace); a kind with no
handler is dropped; a timer expiry invokes the timer handler; the
shutdown signal moves the state machine to Draining. -/
def stepEvent (d : Dispatcher) (e : Event) : Dispatcher :=
  match e with
  | Event.shutdown => { d with state := LoopState.draining }
  | _ =>
      match invocationOf d.registry e with
      | some inv => { d with trace := d.trace ++ [inv] }
      | none => d

/-- Modelled from the spec: Draining finishes the in-flight handler,
closes the Event Source Adapter and transitions to Stopped. -/
def drainClose (d : Dispatcher) : Dispatcher :=
  { d with state := LoopState.stopped, adapter := none }

/-- Modelled from the spec: the Dispatch Loop consuming the queued
events in arrival order, one at a time; it runs while Running, and on
observing shutdown drains and stops. -/
def runLoop : Dispatcher → List Event → Dispatcher
  | d, [] => d
  | d, e :: es =>
      if d.state = LoopState.running then
        let d1 := stepEvent d e
        if d1.state = LoopState.draining then drainClose d1
        else runLoop d1 es
      else d

/-- Modelled from the spec: requestShutdown delivers the Shutdown
event through the same mailbox channel as ordinary messages, so it is
observed in order, after everything already queued. -/
def requestShutdown (es : List Event) : List Event :=
  es ++ [Event.shutdown]

/-- Whether an event is a mailbox message. -/
def isMailboxEvent : Event → Bool
  | Event.mailbox _ _ => true
  | _ => false

/-- The registry kind an event is routed by: a mailbox message by its
discriminator, a timer expiry by the timer-expiry kind; the shutdown
signal is not routed through the registry. -/
def kindOf : Event → Option EventKind
  | Event.mailbox k _ => some (EventKind.mbEvt k)
  | Event.timerExpired => some EventKind.timerEvt
  | Event.shutdown => none

/-- Handling an ordinary (non-shutdown) event only appends that
event's handler invocation, if any, to the trace. -/
theorem stepEvent_eq_of_ne (d : Dispatcher) (e : Event) (h : e ≠ Event.shutdown) :
    stepEvent d e =
      { d with trace := d.trace ++ (invocationOf d.registry e).toList } := by
  cases e with
  | mailbox k p =>
      simp only [stepEvent]
      cases hinv : invocationOf d.registry (Event.mailbox k p) <;>
        simp [hinv, Option.toList]
  | timerExpired =>
      simp only [stepEvent]
      cases hinv : invocationOf d.registry Event.timerExpired <;>
        simp [hinv, Option.toList]
  | shutdown => exact absurd rfl h

/-- Running the loop on a queue without a shutdown signal performs the
invocations of the queued events in arrival order and changes nothing
else. -/
theorem runLoop_no_shutdown (es : List Event) :
    ∀ d : Dispatcher, d.state = LoopState.running → Event.shutdown ∉ es →
    runLoop d es =
      { d with trace := d.trace ++ es.filterMap (invocationOf d.registry) } := by
  induction es with
  | nil =>
      intro d _ _
      simp [runLoop]
  | cons e es ih =>
      intro d hd hs
      have he : e ≠ Event.shutdown := by
        intro h
        exact hs (h ▸ List.mem_cons_self e es)
      have hs' : Event.shutdown ∉ es := fun h => hs (List.mem_cons_of_mem e h)
      rw [runLoop, if_pos hd]
      rw [stepEvent_eq_of_ne d e he]
      rw [if_neg (by simp [hd])]
      rw [ih { d with trace := d.trace ++ (invocationOf d.registry e).toList }
            (by simp [hd]) hs']
      cases hinv : invocationOf d.registry e <;>
        simp [hinv, List.filterMap_cons, Option.toList]

/-- Claim C4: for any queue of mailbox events delivered to the Running
Dispatch Loop in order, the loop invokes the corresponding handlers in
exactly that order (the trace grows by the in-order filterMap of the
events' invocations, so no reordering or batching occurs) and stays
Running. -/
theorem claim_C4_fifo_order (d : Dispatcher) (es : List Event)
    (hd : d.state = LoopState.running)
    (hm : es.all isMailboxEvent = true) :
    (runLoop d es).trace = d.trace ++ es.filterMap (invocationOf d.registry) ∧
    (runLoop d es).state = LoopState.running := by
  have hs : Event.shutdown ∉ es := by
    intro h
    have := List.all_eq_true.mp hm _ h
    simp [isMailboxEvent] at this
  rw [runLoop_no_shutdown es d hd hs]
  exact ⟨rfl, hd⟩

/-- Claim C5: registering a handler for kind K in the Handler Registry
and then looking up K returns that handler; unregistering K and then
looking up K returns the NoHandler sentinel. -/
theorem claim_C5_registry_roundtrip (r : Registry) (k : EventKind) (h : Nat) :
    lookupH (registerH r k h) k = LookupResult.handler h ∧
    lookupH (unregisterH r k) k = LookupResult.noHandler := by
  constructor
  · simp [lookupH, registerH, List.find?]
  · have hfind : ∀ l : Registry,
        (unregisterH l k).find? (fun p => decide (p.1 = k)) = none := by
      intro l
      induction l with
      | nil => rfl
      | cons q l ihl =>
          by_cases hq : q.1 = k
          · simp [unregisterH, hq, ihl]
          · simp [unregisterH, List.filter_cons, hq, List.find?, ihl]
    simp [lookupH, hfind r]

/-- Claim C6: an event of any kind (mailbox-message-type or
timer-expiry) whose kind has no registered handler is dropped:
handling it is a no-op (no fatal error, state still Running) and the
loop goes on to process the subsequent events exactly as it would
have without that event. -/
theorem claim_C6_drop_unhandled (d : Dispatcher) (e : Event) (ek : EventKind)
    (es : List Event)
    (hd : d.state = LoopState.running)
    (hke : kindOf e = some ek)
    (hk : lookupH d.registry ek = LookupResult.noHandler) :
    stepEvent d e = d ∧
    (stepEvent d e).state = LoopState.running ∧
    runLoop d (e :: es) = runLoop d es := by
  have h1 : stepEvent d e = d := by
    cases e with
    | mailbox k p =>
        have hek : ek = EventKind.mbEvt k := by
          simpa [kindOf, eq_comm] using hke
        subst hek
        simp [stepEvent, invocationOf, hk]
    | timerExpired =>
        have hek : ek = EventKind.timerEvt := by
          simpa [kindOf, eq_comm] using hke
        subst hek
        simp [stepEvent, invocationOf, hk]
    | shutdown => simp [kindOf] at hke
  refine ⟨h1, by rw [h1]; exact hd, ?_⟩
  rw [runLoop, if_pos hd, h1, if_neg (by simp [hd])]

/-- Claim C7: start in state Stopped opens the adapter and moves to
Running on success; when opening fails with BindingError the loop is
left in Stopped (state unchanged on error) with no adapter held, and
the error is reported to the caller. -/
theorem claim_C7_start_stopped (k : Kernel) (cfg : tUWA_SYS_CFG) (d : Dispatcher)
    (hd : d.state = LoopState.stopped) :
    (∀ a : Adapter, openAdapter k cfg = Except.ok a →
      (start k cfg d).1.state = LoopState.running ∧ (start k cfg d).2 = none) ∧
    (openAdapter k cfg = Except.error AdapterError.bindingError →
      (start k cfg d).1.state = LoopState.stopped ∧
      (start k cfg d).1.adapter = none ∧
      (start k cfg d).2 = some AdapterError.bindingError) := by
  constructor
  · intro a ha
    simp [start, hd, ha]
  · intro ha
    simp [start, hd, ha]

/-- Claim C8: a shutdown requested while events are queued is observed
after them: the loop processes every already-queued event (their
invocations extend the trace in order, so none is lost), and only then
closes the adapter and reaches Stopped. -/
theorem claim_C8_drain_no_loss (d : Dispatcher) (es : List Event)
    (hd : d.state = LoopState.running)
    (hs : Event.shutdown ∉ es) :
    (runLoop d (requestShutdown es)).state = LoopState.stopped ∧
    (runLoop d (requestShutdown es)).adapter = none ∧
    (runLoop d (requestShutdown es)).trace =
      d.trace ++ es.filterMap (invocationOf d.registry) := by
  induction es generalizing d with
  | nil =>
      refine ⟨?_, ?_, ?_⟩ <;>
        simp [requestShutdown, runLoop, hd, stepEvent, drainClose]
  | cons e es ih =>
      have he : e ≠ Event.shutdown := by
        intro h
        exact hs (h ▸ List.mem_cons_self e es)
      have hs' : Event.shutdown ∉ es := fun h => hs (List.mem_cons_of_mem e h)
      have hrw : runLoop d (requestShutdown (e :: es)) =
          runLoop { d with trace := d.trace ++ (invocationOf d.registry e).toList }
            (requestShutdown es) := by
        show runLoop d (e :: (es ++ [Event.shutdown])) = _
        rw [runLoop, if_pos hd, stepEvent_eq_of_ne d e he, if_neg (by simp [hd])]
        rfl
      rcases ih { d with trace := d.trace ++ (invocationOf d.registry e).toList }
          (by simp [hd]) hs' with ⟨h1, h2, h3⟩
      refine ⟨by rw [hrw]; exact h1, by rw [hrw]; exact h2, ?_⟩
      rw [hrw, h3]
      cases hinv : invocationOf d.registry e <;>
        simp [hinv, List.filterMap_cons, Option.toList]

/-- The spec's concrete scenario configuration: mask 0x01, mailbox id
7, timer id 3. -/
def CFG0 : tUWA_SYS_CFG :=
  { mailboxEventMask := 1, mailboxId := 7, timerId := 3 }

/-- A kernel with no bindings owned, so opening succeeds. -/
def K0 : Kernel := { ownedMailboxes := [], ownedTimers := [] }

/-- A kernel in which mailbox 7 is already owned by another task, so
opening fails with BindingError. -/
def KB : Kernel := { ownedMailboxes := [7], ownedTimers := [] }

/-- The adapter produced by a successful open of CFG0. -/
def A0 : Adapter :=
  { mailboxId := 7, eventMask := 1, timerId := 3, timerArmed := false }

/-- A registry with handlers 5 and 6 for mailbox kinds 1 and 2. -/
def R0 : Registry := [(EventKind.mbEvt 1, 5), (EventKind.mbEvt 2, 6)]

/-- A Running dispatcher holding A0 with registry R0 and empty trace. -/
def D0 : Dispatcher :=
  { state := LoopState.running, registry := R0, adapter := some A0, trace := [] }

/-- A Stopped dispatcher with registry R0 and no adapter. -/
def DStop : Dispatcher :=
  { state := LoopState.stopped, registry := R0, adapter := none, trace := [] }

/-- Two queued mailbox events of kinds 1 and 2. -/
def ES0 : List Event := [Event.mailbox 1 10, Event.mailbox 2 20]

/-- Witness for claim C4 at the concrete dispatcher D0 and queue ES0. -/
theorem claim_C4_fifo_order_witness :
    D0.state = LoopState.running ∧ ES0.all isMailboxEvent = true ∧
    ((runLoop D0 ES0).trace = D0.trace ++ ES0.filterMap (invocationOf D0.registry) ∧
     (runLoop D0 ES0).state = LoopState.running) :=
  ⟨rfl, by decide, claim_C4_fifo_order D0 ES0 rfl (by decide)⟩

/-- Witness for claim C6, at both unhandled kinds: mailbox kind 3 has
no handler in R0 and neither has the timer-expiry kind; each such
event is dropped and the loop continues with ES0. -/
theorem claim_C6_drop_unhandled_witness :
    D0.state = LoopState.running ∧
    (kindOf (Event.mailbox 3 99) = some (EventKind.mbEvt 3) ∧
     lookupH D0.registry (EventKind.mbEvt 3) = LookupResult.noHandler ∧
     (stepEvent D0 (Event.mailbox 3 99) = D0 ∧
      (stepEvent D0 (Event.mailbox 3 99)).state = LoopState.running ∧
      runLoop D0 (Event.mailbox 3 99 :: ES0) = runLoop D0 ES0)) ∧
    (kindOf Event.timerExpired = some EventKind.timerEvt ∧
     lookupH D0.registry EventKind.timerEvt = LookupResult.noHandler ∧
     (stepEvent D0 Event.timerExpired = D0 ∧
      (stepEvent D0 Event.timerExpired).state = LoopState.running ∧
      runLoop D0 (Event.timerExpired :: ES0) = runLoop D0 ES0)) :=
  ⟨rfl,
   ⟨rfl, by decide,
    claim_C6_drop_unhandled D0 (Event.mailbox 3 99) (EventKind.mbEvt 3) ES0
      rfl rfl (by decide)⟩,
   ⟨rfl, by decide,
    claim_C6_drop_unhandled D0 Event.timerExpired EventKind.timerEvt ES0
      rfl rfl (by decide)⟩⟩

/-- Witness for claim C7: from DStop, starting against K0 succeeds and
runs; starting against KB fails with BindingError and stays Stopped. -/
theorem claim_C7_start_stopped_witness :
    DStop.state = LoopState.stopped ∧
    ((start K0 CFG0 DStop).1.state = LoopState.running ∧
     (start K0 CFG0 DStop).2 = none) ∧
    ((start KB CFG0 DStop).1.state = LoopState.stopped ∧
     (start KB CFG0 DStop).1.adapter = none ∧
     (start KB CFG0 DStop).2 = some AdapterError.bindingError) :=
  ⟨rfl, (claim_C7_start_stopped K0 CFG0 DStop rfl).1 A0 rfl,
    (claim_C7_start_stopped KB CFG0 DStop rfl).2 rfl⟩

/-- Witness for claim C8: shutdown requested after ES0 is queued; both
queued events are handled before the loop stops. -/
theorem claim_C8_drain_no_loss_witness :
    D0.state = LoopState.running ∧ Event.shutdown ∉ ES0 ∧
    ((runLoop D0 (requestShutdown ES0)).state = LoopState.stopped ∧
     (runLoop D0 (requestShutdown ES0)).adapter = none ∧
     (runLoop D0 (requestShutdown ES0)).trace =
       D0.trace ++ ES0.filterMap (invocationOf D0.registry)) :=
  ⟨rfl, by decide, claim_C8_drain_no_loss D0 ES0 rfl (by decide)⟩
